import Mathlib

/-!
# Elkeid agent center: the raw-data worker

A shallow embedding of
`server/agent_center/grpctrans/grpc_handler/rawdata_worker.go`
(`handleRawData`, `metricsAgentHeartBeat`, `parseAgentHeartBeat`,
`parsePluginHeartBeat`, `parseRecord`) together with the properties of the
dispatcher that the specification states.

The Go code talks to collaborators that live outside the file (the protobuf
decoder, `strconv.ParseFloat`, the wall clock, the session registry, the task
manager, the JSON encoder, the message pool).  Their answers are read from an
environment `Env`; every call that has an effect outside the function is
recorded, in program order, as an `Event`.  Go maps are association lists with
pairwise distinct keys (`AList`); the order of the entries stands for the
iteration order that the Go runtime happens to pick.
-/

namespace Elkeid

/-! ## Data model -/

/-- A Go byte slice, one natural number per byte. -/
abbrev Bytes := List Nat

/-- A Go `[]string`; `none` is the nil slice. -/
abbrev StrSlice := Option (List String)

/-- The decoded `Item.Fields`, a Go `map[string]string`. -/
abbrev FieldMap := AList (fun _ : String => String)

/-- The dynamic values the worker stores in a `map[string]interface{}`;
`F` is the carrier of `float64`. -/
inductive Value (F : Type) where
  | str (s : String)
  | float64 (x : F)
  | int64 (i : Int)
  | strs (l : StrSlice)

/-- A Go `map[string]interface{}` as built by the heartbeat parsers. -/
abbrev Detail (F : Type) := AList (fun _ : String => Value F)

/-- The protobuf message `pb.Record`. -/
structure Record where
  DataType : Int
  Timestamp : Int
  Body : Bytes

/-- The protobuf message `pb.RawData`, one batch reported by an agent. -/
structure RawData where
  IntranetIPv4 : StrSlice
  ExtranetIPv4 : StrSlice
  IntranetIPv6 : StrSlice
  ExtranetIPv6 : StrSlice
  AgentID : String
  Hostname : String
  Version : String
  Product : String
  Data : List Record

/-- Modelled from the spec: the declaration of the protobuf message `pb.MQData`
is not part of the file; the fields are the ones `handleRawData` assigns and
the specification lists for the outbound message. -/
structure MQData where
  DataType : Int
  AgentTime : Int
  Body : Bytes
  AgentID : String
  IntranetIPv4 : String
  ExtranetIPv4 : String
  IntranetIPv6 : String
  ExtranetIPv6 : String
  Hostname : String
  Version : String
  Product : String
  SvrTime : Int
  PSMName : String
  PSMPath : String
  Tag : String

/-- Modelled from the spec: the part of `pool.Connection` that the worker
reads, the source address and the creation time. -/
structure Connection where
  SourceAddr : String
  CreateAt : Int

/-- Modelled from the spec: the registry entry returned by
`GetExtraInfoByID`, of which only the tag is read. -/
structure ExtraInfo where
  Tags : String

/-- Every call with an effect outside the worker, in program order. -/
inductive Event (F : Type) where
  /-- The call `ylog.Debugf("handleRawData", ...)` with its five arguments. -/
  | logDebug (k : Nat) (timestamp dataType : Int) (agentID hostname : String)
  /-- The call `ylog.Errorf("parseRecord", ...)`. -/
  | logParseRecordError (err : String)
  /-- The call `ylog.Errorf("parsePluginHeartBeat", ...)`. -/
  | logPluginNameMissing (data : FieldMap)
  /-- The call `ylog.Errorf("handleRawData", "PushTask2Manager error %s", ...)`. -/
  | logPushTaskError (err : String)
  /-- The call `ylog.Infof("AgentErrorLog", ...)`. -/
  | logAgentErrorLog (line : String)
  /-- The call `outputDataTypeCounter.With({"data_type": label}).Add(1)`. -/
  | incDataType (label : String)
  /-- The call `outputAgentIDCounter.With({"agent_id": label}).Add(1)`. -/
  | incAgentID (label : String)
  /-- The call `conn.SetAgentDetail(detail)`. -/
  | setAgentDetail (detail : Detail F)
  /-- The call `conn.SetPluginDetail(name, detail)`. -/
  | setPluginDetail (name : String) (detail : Detail F)
  /-- The call `agentGauge[metric].With({agent_id, name}).Set(v)`. -/
  | gaugeSet (metric agentID name : String) (v : F)
  /-- The call `GlobalGRPCPool.PushTask2Manager(item)`. -/
  | pushTask2Manager (item : FieldMap)
  /-- The call `es.CollectLog(agentID, item)`. -/
  | collectLog (agentID : String) (item : FieldMap)
  /-- The call `common.KafkaProducer.SendPBWithKey(key, msg)`. -/
  | sendPBWithKey (key : String) (msg : MQData)

/-- The answers of the collaborators of the worker. -/
structure Env (F : Type) where
  /-- The function `proto.Unmarshal` into a `pb.Item`, followed by `.Fields`. -/
  unmarshal : Bytes → Except String FieldMap
  /-- The function `strconv.ParseFloat(v, 64)`: `some fv` when `err == nil`. -/
  parseFloat : String → Option F
  /-- The value of `time.Now().Unix()` read once at the start of the batch. -/
  svrTime : Int
  /-- The value of `time.Now().Unix()` read while record `k` is handled. -/
  now : Nat → Int
  /-- The lookup `GlobalGRPCPool.GetExtraInfoByID`. -/
  getExtraInfoByID : String → Option ExtraInfo
  /-- The error, if any, that `PushTask2Manager` returns for record `k`. -/
  pushTaskError : Nat → FieldMap → Option String
  /-- The function `json.Marshal` on a field map. -/
  jsonMarshal : FieldMap → Except String String
  /-- The keys of the table `agentGauge`, in iteration order; every key names
  a gauge vector of its own. -/
  agentGauge : List String

/-- The function `strings.Join`. -/
def stringsJoin (elems : StrSlice) (sep : String) : String :=
  sep.intercalate (elems.getD [])

/-- The function `fmt.Sprint` on an `int32`: the decimal rendering. -/
def fmtSprint (n : Int) : String :=
  toString n

/-! ## The source functions -/

variable {F : Type}

/-- The function `parseRecord`. -/
def parseRecord (env : Env F) (hb : Record) : Except String FieldMap × List (Event F) :=
  match env.unmarshal hb.Body with
  | .error err => (.error err, [.logParseRecordError err])
  | .ok fields => (.ok fields, [])

/-- The coercion loop shared by `parseAgentHeartBeat` (with
`passKey = "platform_version"`) and `parsePluginHeartBeat` (with
`passKey = "pversion"`): `for k, v := range hb`, writing into `detail`. -/
def coerceFields (env : Env F) (passKey : String) (hb : FieldMap) (detail : Detail F) :
    Detail F :=
  hb.foldl (fun detail k v =>
    if k = passKey then detail.insert k (.str v)
    else
      match env.parseFloat v with
      | some fv => detail.insert k (.float64 fv)
      | none => detail.insert k (.str v)) detail

/-- The function `metricsAgentHeartBeat`. -/
def metricsAgentHeartBeat (agentGauge : List String) (agentID name : String)
    (detail : Option (Detail F)) : List (Event F) :=
  match detail with
  | none => []
  | some detail =>
    agentGauge.foldl (fun evs k =>
      match detail.lookup k with
      | some (.float64 fv) => evs ++ [.gaugeSet k agentID name fv]
      | _ => evs) []

/-- The function `parseAgentHeartBeat`, for the record at index `k`. -/
def parseAgentHeartBeat (env : Env F) (k : Nat) (record : Record) (req : RawData)
    (conn : Connection) : Option (Detail F) × List (Event F) :=
  match parseRecord env record with
  | (.error _, evs) => (none, evs)
  | (.ok hb, evs) =>
    let detail : Detail F := ∅
    let detail := coerceFields env "platform_version" hb detail
    let detail := detail.insert "agent_id" (.str req.AgentID)
    let detail := detail.insert "agent_addr" (.str conn.SourceAddr)
    let detail := detail.insert "create_at" (.int64 conn.CreateAt)
    let detail :=
      if req.IntranetIPv4 ≠ none then detail.insert "intranet_ipv4" (.strs req.IntranetIPv4)
      else detail.insert "intranet_ipv4" (.strs (some []))
    let detail :=
      if req.ExtranetIPv4 ≠ none then detail.insert "extranet_ipv4" (.strs req.ExtranetIPv4)
      else detail.insert "extranet_ipv4" (.strs (some []))
    let detail :=
      if req.IntranetIPv6 ≠ none then detail.insert "intranet_ipv6" (.strs req.IntranetIPv6)
      else detail.insert "intranet_ipv6" (.strs (some []))
    let detail :=
      if req.ExtranetIPv6 ≠ none then detail.insert "extranet_ipv6" (.strs req.ExtranetIPv6)
      else detail.insert "extranet_ipv6" (.strs (some []))
    let detail := detail.insert "version" (.str req.Version)
    let detail := detail.insert "hostname" (.str req.Hostname)
    let detail := detail.insert "product" (.str req.Product)
    let detail := detail.insert "last_heartbeat_time" (.int64 (env.now k))
    (some detail, evs ++ [.setAgentDetail detail])

/-- The function `parsePluginHeartBeat`, for the record at index `k`. -/
def parsePluginHeartBeat (env : Env F) (k : Nat) (record : Record) :
    Option (Detail F) × List (Event F) :=
  match parseRecord env record with
  | (.error _, evs) => (none, evs)
  | (.ok data, evs) =>
    match data.lookup "name" with
    | none => (none, evs ++ [.logPluginNameMissing data])
    | some pluginName =>
      let detail : Detail F := ∅
      let detail := coerceFields env "pversion" data detail
      let detail := detail.insert "last_heartbeat_time" (.int64 (env.now k))
      (some detail, evs ++ [.setPluginDetail pluginName detail])

/-- The body of the loop of `handleRawData` for the element `v` at index `k`
(the expression `req.GetData()[k]` is `v`), given the batch-wide values
computed before the loop and the object `pooled` handed out by
`kafka.MQMsgPool.Get()`.  A `continue` ends the body without reaching the call
of `SendPBWithKey`. -/
def handleRecord (env : Env F) (req : RawData) (conn : Connection)
    (inIpv4 exIpv4 inIpv6 exIpv6 : String) (SvrTime : Int) (extraInfo : Option ExtraInfo)
    (pooled : MQData) (k : Nat) (v : Record) : List (Event F) :=
  let mqMsg := pooled
  let mqMsg := { mqMsg with DataType := v.DataType }
  let mqMsg := { mqMsg with AgentTime := v.Timestamp }
  let mqMsg := { mqMsg with Body := v.Body }
  let mqMsg := { mqMsg with AgentID := req.AgentID }
  let mqMsg := { mqMsg with IntranetIPv4 := inIpv4 }
  let mqMsg := { mqMsg with ExtranetIPv4 := exIpv4 }
  let mqMsg := { mqMsg with IntranetIPv6 := inIpv6 }
  let mqMsg := { mqMsg with ExtranetIPv6 := exIpv6 }
  let mqMsg := { mqMsg with Hostname := req.Hostname }
  let mqMsg := { mqMsg with Version := req.Version }
  let mqMsg := { mqMsg with Product := req.Product }
  let mqMsg := { mqMsg with SvrTime := SvrTime }
  let mqMsg := { mqMsg with PSMName := "" }
  let mqMsg := { mqMsg with PSMPath := "" }
  let mqMsg :=
    match extraInfo with
    | some info => { mqMsg with Tag := info.Tags }
    | none => { mqMsg with Tag := "" }
  let head : List (Event F) :=
    [.logDebug k v.Timestamp v.DataType req.AgentID req.Hostname,
     .incDataType (fmtSprint mqMsg.DataType),
     .incAgentID mqMsg.AgentID]
  let send : List (Event F) := [.sendPBWithKey req.AgentID mqMsg]
  if mqMsg.DataType = 1000 then
    match parseAgentHeartBeat env k v req conn with
    | (detail, evs) =>
      head ++ evs ++ metricsAgentHeartBeat env.agentGauge req.AgentID "agent" detail ++ send
  else if mqMsg.DataType = 1001 then
    match parsePluginHeartBeat env k v with
    | (none, evs) => head ++ evs ++ send
    | (some detail, evs) =>
      match detail.lookup "name" with
      | some (.str name) =>
        head ++ evs ++ metricsAgentHeartBeat env.agentGauge req.AgentID name (some detail) ++ send
      | _ => head ++ evs ++ send
  else if mqMsg.DataType = 2001 ∨ mqMsg.DataType = 2003 ∨ mqMsg.DataType = 6003 then
    match parseRecord env v with
    | (.error _, evs) => head ++ evs
    | (.ok item, evs) =>
      match env.pushTaskError k item with
      | some err => head ++ evs ++ [.pushTask2Manager item, .logPushTaskError err] ++ send
      | none => head ++ evs ++ [.pushTask2Manager item] ++ send
  else if mqMsg.DataType = 1010 ∨ mqMsg.DataType = 1011 then
    match parseRecord env v with
    | (.error _, evs) => head ++ evs
    | (.ok item, evs) =>
      match env.jsonMarshal item with
      | .error _ => head ++ evs ++ [.collectLog req.AgentID item]
      | .ok b => head ++ evs ++ [.collectLog req.AgentID item, .logAgentErrorLog b] ++ send
  else head ++ send

/-- The loop `for k, v := range data`, started at index `k`. -/
def rangeData (body : Nat → Record → List (Event F)) : Nat → List Record → List (Event F)
  | _, [] => []
  | k, v :: rest => body k v ++ rangeData body (k + 1) rest

/-- The function `handleRawData`: the calls it makes, in order, and the agent
id it returns.  The object that `kafka.MQMsgPool.Get()` hands out for the
record at index `k` is `poolGet k`, with whatever a previous user left in it. -/
def handleRawData (env : Env F) (poolGet : Nat → MQData) (req : RawData) (conn : Connection) :
    List (Event F) × String :=
  let inIpv4 := stringsJoin req.IntranetIPv4 ","
  let exIpv4 := stringsJoin req.ExtranetIPv4 ","
  let inIpv6 := stringsJoin req.IntranetIPv6 ","
  let exIpv6 := stringsJoin req.ExtranetIPv6 ","
  let SvrTime := env.svrTime
  let extraInfo := env.getExtraInfoByID req.AgentID
  (rangeData (fun k v =>
      handleRecord env req conn inIpv4 exIpv4 inIpv6 exIpv6 SvrTime extraInfo (poolGet k) k v)
    0 req.Data,
   req.AgentID)

/-! ## Reading the trace -/

/-- The messages handed to `SendPBWithKey`, with their keys, in order. -/
def published : List (Event F) → List (String × MQData)
  | [] => []
  | .sendPBWithKey key msg :: evs => (key, msg) :: published evs
  | _ :: evs => published evs

/-- The number of `Add(1)` calls on the `data_type` counter with this label. -/
def dataTypeAdds (label : String) : List (Event F) → Nat
  | [] => 0
  | .incDataType l :: evs => (if l = label then 1 else 0) + dataTypeAdds label evs
  | _ :: evs => dataTypeAdds label evs

/-- The number of `Add(1)` calls on the `agent_id` counter with this label. -/
def agentIDAdds (label : String) : List (Event F) → Nat
  | [] => 0
  | .incAgentID l :: evs => (if l = label then 1 else 0) + agentIDAdds label evs
  | _ :: evs => agentIDAdds label evs

/-- Whether the event is a call of `conn.SetAgentDetail`. -/
def Event.isSetAgentDetail : Event F → Bool
  | .setAgentDetail _ => true
  | _ => false

/-- Whether the event is a call of `conn.SetPluginDetail`. -/
def Event.isSetPluginDetail : Event F → Bool
  | .setPluginDetail _ _ => true
  | _ => false

/-- Whether the event is a `Set` on a gauge of `agentGauge`. -/
def Event.isGaugeSet : Event F → Bool
  | .gaugeSet _ _ _ _ => true
  | _ => false

/-- Whether the event is a call of `PushTask2Manager`. -/
def Event.isPushTask : Event F → Bool
  | .pushTask2Manager _ => true
  | _ => false

/-- Whether the event is a call of `es.CollectLog`. -/
def Event.isCollectLog : Event F → Bool
  | .collectLog _ _ => true
  | _ => false

/-- The state of the gauge vectors: the value of the cell of a metric under
the labels `agent_id` and `name`, `none` while the cell has never been set. -/
abbrev Gauges (F : Type) := String → String → String → Option F

/-- The effect of one event on the gauges: `Set` overwrites its cell. -/
def Event.applyGauge (g : Gauges F) : Event F → Gauges F
  | .gaugeSet metric agentID name v => fun m a n =>
    if m = metric ∧ a = agentID ∧ n = name then some v else g m a n
  | _ => g

/-- The gauges after the events of a trace, starting from `g`. -/
def gaugesAfter (evs : List (Event F)) (g : Gauges F) : Gauges F :=
  evs.foldl Event.applyGauge g

/-- The events of the record `v` at index `k` within the run of
`handleRawData` on the batch `req`: the loop body with the batch-wide values
of that run. -/
def recordEvents (env : Env F) (poolGet : Nat → MQData) (req : RawData) (conn : Connection)
    (k : Nat) (v : Record) : List (Event F) :=
  handleRecord env req conn (stringsJoin req.IntranetIPv4 ",") (stringsJoin req.ExtranetIPv4 ",")
    (stringsJoin req.IntranetIPv6 ",") (stringsJoin req.ExtranetIPv6 ",") env.svrTime
    (env.getExtraInfoByID req.AgentID) (poolGet k) k v

/-- The outbound message that the specification describes for the record `v`
of the batch `req`: every field is taken from the record, the batch, the
receipt time of the batch and the session tag (empty without a registry
entry). -/
def outboundMessage (env : Env F) (req : RawData) (v : Record) : MQData :=
  { DataType := v.DataType
    AgentTime := v.Timestamp
    Body := v.Body
    AgentID := req.AgentID
    IntranetIPv4 := stringsJoin req.IntranetIPv4 ","
    ExtranetIPv4 := stringsJoin req.ExtranetIPv4 ","
    IntranetIPv6 := stringsJoin req.IntranetIPv6 ","
    ExtranetIPv6 := stringsJoin req.ExtranetIPv6 ","
    Hostname := req.Hostname
    Version := req.Version
    Product := req.Product
    SvrTime := env.svrTime
    PSMName := ""
    PSMPath := ""
    Tag := (match env.getExtraInfoByID req.AgentID with
      | some info => info.Tags
      | none => "") }

/-- The number a list of decimal digit characters denotes; characters below
`'0'`, such as the sign, count as zero. -/
def digitsValue (l : List Char) : Nat :=
  l.foldl (fun a c => 10 * a + (c.toNat - 48)) 0

/-- Whether the event is neither a counter increment nor a publish. -/
def Event.isPlain : Event F → Bool
  | .incDataType _ => false
  | .incAgentID _ => false
  | .sendPBWithKey _ _ => false
  | _ => true

/-- The keys that `parseAgentHeartBeat` writes after the coercion loop. -/
def adminKeys : List String :=
  ["agent_id", "agent_addr", "create_at", "intranet_ipv4", "extranet_ipv4", "intranet_ipv6",
    "extranet_ipv6", "version", "hostname", "product", "last_heartbeat_time"]

/-! ## Sample inputs -/

/-- The field map with the given entries; an entry further to the left wins
when a key occurs twice. -/
def fieldMapOf (l : List (String × String)) : FieldMap :=
  l.foldr (fun p m => m.insert p.1 p.2) ∅

/-- A decoder for the sample bodies: body `[1]` holds `{"mem":"10"}`, `[2]` the
empty map, `[3]` a plugin heartbeat named `7`, `[4]` a plugin heartbeat named
`scanner`, `[5]` the field map of the normalization example; every other body
does not decode. -/
def sampleUnmarshal : Bytes → Except String FieldMap
  | [1] => .ok (fieldMapOf [("mem", "10")])
  | [2] => .ok ∅
  | [3] => .ok (fieldMapOf [("name", "7"), ("cpu", "1.5")])
  | [4] => .ok (fieldMapOf [("name", "scanner"), ("cpu", "1.5")])
  | [5] => .ok (fieldMapOf [("cpu", "1.5"), ("platform_version", "v1")])
  | _ => .error "proto: cannot parse invalid wire-format data"

/-- The results of `strconv.ParseFloat` on the strings of the sample bodies,
with rational numbers for `float64`: `10`, `1.5` and `7` parse, `v1` and
`scanner` do not. -/
def sampleParseFloat (s : String) : Option ℚ :=
  if s = "10" then some 10
  else if s = "1.5" then some (3 / 2)
  else if s = "7" then some 7
  else none

/-- A sample environment: no registry entry, a task manager that accepts
everything, and gauges for `cpu` and `mem`. -/
def sampleEnv : Env ℚ where
  unmarshal := sampleUnmarshal
  parseFloat := sampleParseFloat
  svrTime := 1700000000
  now := fun k => 1700000000 + k
  getExtraInfoByID := fun _ => none
  pushTaskError := fun _ _ => none
  jsonMarshal := fun _ => .ok "\x7b\x7d"
  agentGauge := ["cpu", "mem"]

/-- A pool whose objects still hold the values of a previous user. -/
def samplePool : Nat → MQData := fun _ =>
  { DataType := 9, AgentTime := 9, Body := [9], AgentID := "old", IntranetIPv4 := "old",
    ExtranetIPv4 := "old", IntranetIPv6 := "old", ExtranetIPv6 := "old", Hostname := "old",
    Version := "old", Product := "old", SvrTime := 9, PSMName := "old", PSMPath := "old",
    Tag := "old" }

/-- A pool of zeroed objects. -/
def freshPool : Nat → MQData := fun _ =>
  { DataType := 0, AgentTime := 0, Body := [], AgentID := "", IntranetIPv4 := "",
    ExtranetIPv4 := "", IntranetIPv6 := "", ExtranetIPv6 := "", Hostname := "",
    Version := "", Product := "", SvrTime := 0, PSMName := "", PSMPath := "", Tag := "" }

/-- A sample connection. -/
def sampleConn : Connection := { SourceAddr := "10.0.0.7:5000", CreateAt := 1690000000 }

/-- A sample batch of the agent `A` with the given records; only the
extranet IPv4 list is present. -/
def sampleBatch (data : List Record) : RawData :=
  { IntranetIPv4 := none, ExtranetIPv4 := some ["1.2.3.4", "5.6.7.8"], IntranetIPv6 := none,
    ExtranetIPv6 := none, AgentID := "A", Hostname := "host", Version := "1.7", Product := "elkeid",
    Data := data }

/-! ## Auxiliary lemmas -/

theorem rangeData_append (f : Nat → Record → List (Event F)) (xs ys : List Record) (k : Nat) :
    rangeData f k (xs ++ ys) = rangeData f k xs ++ rangeData f (k + xs.length) ys := by
  induction xs generalizing k with
  | nil => simp [rangeData]
  | cons x xs ih => simp [rangeData, ih, Nat.add_assoc, Nat.add_comm 1]

theorem rangeData_split (f : Nat → Record → List (Event F)) (pre post : List Record)
    (v : Record) :
    rangeData f 0 (pre ++ v :: post)
      = rangeData f 0 pre ++ f pre.length v ++ rangeData f (pre.length + 1) post := by
  simp [rangeData_append, rangeData]

theorem handleRawData_trace (env : Env F) (poolGet : Nat → MQData) (req : RawData)
    (conn : Connection) :
    (handleRawData env poolGet req conn).1
      = rangeData (recordEvents env poolGet req conn) 0 req.Data := rfl

theorem recordEvents_data (env : Env F) (poolGet : Nat → MQData) (req : RawData)
    (conn : Connection) (data : List Record) :
    recordEvents env poolGet { req with Data := data } conn
      = recordEvents env poolGet req conn := rfl

theorem published_append (xs ys : List (Event F)) :
    published (xs ++ ys) = published xs ++ published ys := by
  induction xs with
  | nil => rfl
  | cons x xs ih => cases x <;> simp [published, ih]

theorem metrics_foldl (detail : Detail F) (agentID name : String) (l : List String)
    (acc : List (Event F)) :
    l.foldl (fun evs k =>
        match detail.lookup k with
        | some (.float64 fv) => evs ++ [.gaugeSet k agentID name fv]
        | _ => evs) acc
      = acc ++ l.filterMap (fun k =>
          match detail.lookup k with
          | some (.float64 fv) => some (.gaugeSet k agentID name fv)
          | _ => none) := by
  induction l generalizing acc with
  | nil => simp
  | cons k l ih =>
    rw [List.foldl_cons, ih]
    rcases hk : detail.lookup k with _ | (_ | x | _ | _) <;> simp [List.filterMap_cons, hk]

theorem metricsAgentHeartBeat_some (agentGauge : List String) (agentID name : String)
    (detail : Detail F) :
    metricsAgentHeartBeat agentGauge agentID name (some detail)
      = agentGauge.filterMap (fun k =>
          match detail.lookup k with
          | some (.float64 fv) => some (.gaugeSet k agentID name fv)
          | _ => none) := by
  simp [metricsAgentHeartBeat, metrics_foldl]

theorem mem_metricsAgentHeartBeat {agentGauge : List String} {agentID name : String}
    {detail : Option (Detail F)} {e : Event F}
    (h : e ∈ metricsAgentHeartBeat agentGauge agentID name detail) :
    ∃ d m x, detail = some d ∧ m ∈ agentGauge ∧ d.lookup m = some (.float64 x)
      ∧ e = .gaugeSet m agentID name x := by
  cases detail with
  | none => simp [metricsAgentHeartBeat] at h
  | some d =>
    rw [metricsAgentHeartBeat_some, List.mem_filterMap] at h
    obtain ⟨m, hm, he⟩ := h
    rcases hk : d.lookup m with _ | (_ | x | _ | _) <;> simp [hk] at he
    exact ⟨d, m, x, rfl, hm, hk, he.symm⟩

theorem recordEvents_agent (env : Env F) (poolGet : Nat → MQData) (req : RawData)
    (conn : Connection) (k : Nat) (v : Record) (ht : v.DataType = 1000) :
    recordEvents env poolGet req conn k v
      = [.logDebug k v.Timestamp v.DataType req.AgentID req.Hostname,
          .incDataType (fmtSprint v.DataType), .incAgentID req.AgentID]
        ++ (parseAgentHeartBeat env k v req conn).2
        ++ metricsAgentHeartBeat env.agentGauge req.AgentID "agent"
            (parseAgentHeartBeat env k v req conn).1
        ++ [.sendPBWithKey req.AgentID (outboundMessage env req v)] := by
  unfold recordEvents handleRecord outboundMessage
  cases env.getExtraInfoByID req.AgentID <;> simp [ht]

theorem recordEvents_other (env : Env F) (poolGet : Nat → MQData) (req : RawData)
    (conn : Connection) (k : Nat) (v : Record) (h0 : v.DataType ≠ 1000) (h1 : v.DataType ≠ 1001)
    (h2 : v.DataType ≠ 2001) (h3 : v.DataType ≠ 2003) (h4 : v.DataType ≠ 6003)
    (h5 : v.DataType ≠ 1010) (h6 : v.DataType ≠ 1011) :
    recordEvents env poolGet req conn k v
      = [.logDebug k v.Timestamp v.DataType req.AgentID req.Hostname,
          .incDataType (fmtSprint v.DataType), .incAgentID req.AgentID,
          .sendPBWithKey req.AgentID (outboundMessage env req v)] := by
  unfold recordEvents handleRecord outboundMessage
  cases env.getExtraInfoByID req.AgentID <;> simp [h0, h1, h2, h3, h4, h5, h6]

theorem recordEvents_plugin (env : Env F) (poolGet : Nat → MQData) (req : RawData)
    (conn : Connection) (k : Nat) (v : Record) (ht : v.DataType = 1001) :
    recordEvents env poolGet req conn k v
      = [.logDebug k v.Timestamp v.DataType req.AgentID req.Hostname,
          .incDataType (fmtSprint v.DataType), .incAgentID req.AgentID]
        ++ (parsePluginHeartBeat env k v).2
        ++ (match (parsePluginHeartBeat env k v).1 with
            | none => []
            | some detail =>
              match detail.lookup "name" with
              | some (.str name) =>
                metricsAgentHeartBeat env.agentGauge req.AgentID name (some detail)
              | _ => [])
        ++ [.sendPBWithKey req.AgentID (outboundMessage env req v)] := by
  unfold recordEvents handleRecord outboundMessage
  cases env.getExtraInfoByID req.AgentID <;> simp [ht] <;>
    rcases parsePluginHeartBeat env k v with ⟨_ | d, evs⟩ <;> simp <;>
    rcases d.lookup "name" with _ | (_ | _ | _ | _) <;> simp

theorem recordEvents_task (env : Env F) (poolGet : Nat → MQData) (req : RawData)
    (conn : Connection) (k : Nat) (v : Record)
    (ht : v.DataType = 2001 ∨ v.DataType = 2003 ∨ v.DataType = 6003) :
    recordEvents env poolGet req conn k v
      = [.logDebug k v.Timestamp v.DataType req.AgentID req.Hostname,
          .incDataType (fmtSprint v.DataType), .incAgentID req.AgentID]
        ++ (match env.unmarshal v.Body with
            | .error err => [.logParseRecordError err]
            | .ok item =>
              match env.pushTaskError k item with
              | some err =>
                [.pushTask2Manager item, .logPushTaskError err,
                  .sendPBWithKey req.AgentID (outboundMessage env req v)]
              | none =>
                [.pushTask2Manager item,
                  .sendPBWithKey req.AgentID (outboundMessage env req v)]) := by
  unfold recordEvents handleRecord outboundMessage parseRecord
  cases env.getExtraInfoByID req.AgentID <;> rcases ht with h | h | h <;> simp [h] <;>
    rcases env.unmarshal v.Body with err | item <;> simp <;>
    rcases env.pushTaskError k item with _ | e <;> simp

theorem recordEvents_errorLog (env : Env F) (poolGet : Nat → MQData) (req : RawData)
    (conn : Connection) (k : Nat) (v : Record)
    (ht : v.DataType = 1010 ∨ v.DataType = 1011) :
    recordEvents env poolGet req conn k v
      = [.logDebug k v.Timestamp v.DataType req.AgentID req.Hostname,
          .incDataType (fmtSprint v.DataType), .incAgentID req.AgentID]
        ++ (match env.unmarshal v.Body with
            | .error err => [.logParseRecordError err]
            | .ok item =>
              match env.jsonMarshal item with
              | .error _ => [.collectLog req.AgentID item]
              | .ok b =>
                [.collectLog req.AgentID item, .logAgentErrorLog b,
                  .sendPBWithKey req.AgentID (outboundMessage env req v)]) := by
  unfold recordEvents handleRecord outboundMessage parseRecord
  cases env.getExtraInfoByID req.AgentID <;> rcases ht with h | h <;> simp [h] <;>
    rcases env.unmarshal v.Body with err | item <;> simp <;>
    rcases env.jsonMarshal item with _ | e <;> simp

theorem parseAgentHeartBeat_events (env : Env F) (k : Nat) (record : Record) (req : RawData)
    (conn : Connection) :
    (∃ err, env.unmarshal record.Body = .error err
        ∧ parseAgentHeartBeat env k record req conn = (none, [.logParseRecordError err]))
      ∨ ∃ hb detail, env.unmarshal record.Body = .ok hb
        ∧ parseAgentHeartBeat env k record req conn = (some detail, [.setAgentDetail detail]) := by
  unfold parseAgentHeartBeat parseRecord
  rcases h : env.unmarshal record.Body with err | hb
  · exact Or.inl ⟨err, rfl, rfl⟩
  · exact Or.inr ⟨hb, _, rfl, rfl⟩

theorem parsePluginHeartBeat_events (env : Env F) (k : Nat) (record : Record) :
    (∃ err, env.unmarshal record.Body = .error err
        ∧ parsePluginHeartBeat env k record = (none, [.logParseRecordError err]))
      ∨ (∃ data, env.unmarshal record.Body = .ok data ∧ data.lookup "name" = none
        ∧ parsePluginHeartBeat env k record = (none, [.logPluginNameMissing data]))
      ∨ ∃ data name, env.unmarshal record.Body = .ok data ∧ data.lookup "name" = some name
        ∧ parsePluginHeartBeat env k record
          = (some ((coerceFields env "pversion" data ∅).insert "last_heartbeat_time"
                (.int64 (env.now k))),
              [.setPluginDetail name ((coerceFields env "pversion" data ∅).insert
                "last_heartbeat_time" (.int64 (env.now k)))]) := by
  unfold parsePluginHeartBeat parseRecord
  rcases h : env.unmarshal record.Body with err | data
  · exact Or.inl ⟨err, rfl, rfl⟩
  · rcases hn : data.lookup "name" with _ | name
    · exact Or.inr (Or.inl ⟨data, rfl, hn, by simp [hn]⟩)
    · exact Or.inr (Or.inr ⟨data, name, rfl, hn, by simp [hn]⟩)

theorem digitsValue_foldl (l : List Char) (a : Nat) :
    l.foldl (fun a c => 10 * a + (c.toNat - 48)) a = a * 10 ^ l.length + digitsValue l := by
  induction l generalizing a with
  | nil => simp [digitsValue]
  | cons c l ih =>
    simp only [List.foldl_cons, List.length_cons, digitsValue]
    rw [ih (10 * a + (c.toNat - 48)), ih (10 * 0 + (c.toNat - 48))]
    ring

theorem digitsValue_cons (c : Char) (l : List Char) :
    digitsValue (c :: l) = (c.toNat - 48) * 10 ^ l.length + digitsValue l := by
  simp only [digitsValue, List.foldl_cons]
  rw [digitsValue_foldl]
  simp [digitsValue]

theorem digitChar_value (m : Nat) (h : m < 10) : (Nat.digitChar m).toNat - 48 = m := by
  interval_cases m <;> rfl

theorem digitsValue_toDigitsCore (fuel n : Nat) (ds : List Char) (h : n < fuel) :
    digitsValue (Nat.toDigitsCore 10 fuel n ds) = n * 10 ^ ds.length + digitsValue ds := by
  induction fuel generalizing n ds with
  | zero => omega
  | succ fuel ih =>
    simp only [Nat.toDigitsCore]
    split
    · next h0 =>
      rw [digitsValue_cons, digitChar_value _ (Nat.mod_lt _ (by norm_num))]
      have : n % 10 = n := by omega
      rw [this]
    · next h0 =>
      rw [ih (n / 10) _ (by omega), digitsValue_cons,
        digitChar_value _ (Nat.mod_lt _ (by norm_num))]
      simp only [List.length_cons, pow_succ]
      have hn := Nat.div_add_mod n 10
      generalize n / 10 = q at hn ⊢
      generalize n % 10 = r at hn ⊢
      rw [← hn]
      ring

theorem digitsValue_repr (n : Nat) : digitsValue (Nat.repr n).data = n := by
  have := digitsValue_toDigitsCore (n + 1) n [] (by omega)
  simpa [Nat.repr, Nat.toDigits, List.asString, digitsValue] using this

theorem fmtSprint_ofNat (m : Nat) : fmtSprint (Int.ofNat m) = Nat.repr m := rfl

theorem fmtSprint_negSucc (m : Nat) : fmtSprint (Int.negSucc m) = "-" ++ Nat.repr (m + 1) := rfl

theorem digitsValue_neg (s : String) : digitsValue ("-" ++ s).data = digitsValue s.data := by
  have : ("-" ++ s).data = '-' :: s.data := by simp [String.data_append]
  rw [this, digitsValue_cons]
  simp

theorem fmtSprint_injective : Function.Injective fmtSprint := by
  intro a b h
  have hv := congrArg (fun s => digitsValue s.data) h
  have hl := congrArg String.length h
  cases a with
  | ofNat x =>
    cases b with
    | ofNat y =>
      simp only [fmtSprint_ofNat, digitsValue_repr] at hv
      rw [hv]
    | negSucc y =>
      exfalso
      simp only [fmtSprint_ofNat, fmtSprint_negSucc, digitsValue_repr, digitsValue_neg] at hv
      rw [fmtSprint_ofNat, fmtSprint_negSucc, String.length_append, hv] at hl
      have h1 : "-".length = 1 := rfl
      omega
  | negSucc x =>
    cases b with
    | ofNat y =>
      exfalso
      simp only [fmtSprint_ofNat, fmtSprint_negSucc, digitsValue_repr, digitsValue_neg] at hv
      rw [fmtSprint_ofNat, fmtSprint_negSucc, String.length_append, hv] at hl
      have h1 : "-".length = 1 := rfl
      omega
    | negSucc y =>
      simp only [fmtSprint_negSucc, digitsValue_repr, digitsValue_neg] at hv
      have : x = y := by omega
      rw [this]

theorem dataTypeAdds_append (label : String) (xs ys : List (Event F)) :
    dataTypeAdds label (xs ++ ys) = dataTypeAdds label xs + dataTypeAdds label ys := by
  induction xs with
  | nil => simp [dataTypeAdds]
  | cons x xs ih => cases x <;> simp [dataTypeAdds, ih, Nat.add_assoc]

theorem agentIDAdds_append (label : String) (xs ys : List (Event F)) :
    agentIDAdds label (xs ++ ys) = agentIDAdds label xs + agentIDAdds label ys := by
  induction xs with
  | nil => simp [agentIDAdds]
  | cons x xs ih => cases x <;> simp [agentIDAdds, ih, Nat.add_assoc]

theorem plain_events (xs : List (Event F)) (h : ∀ e ∈ xs, e.isPlain = true) (label : String) :
    dataTypeAdds label xs = 0 ∧ agentIDAdds label xs = 0 ∧ published xs = [] := by
  induction xs with
  | nil => simp [dataTypeAdds, agentIDAdds, published]
  | cons x xs ih =>
    have hx := h x (List.mem_cons_self _ _)
    have ih2 := ih (fun e he => h e (List.mem_cons_of_mem _ he))
    cases x <;> simp_all [dataTypeAdds, agentIDAdds, published, Event.isPlain]

theorem recordEvents_shape (env : Env F) (poolGet : Nat → MQData) (req : RawData)
    (conn : Connection) (k : Nat) (v : Record) :
    ∃ (mid : List (Event F)) (sent : Bool), (∀ e ∈ mid, e.isPlain = true)
      ∧ recordEvents env poolGet req conn k v
        = [.logDebug k v.Timestamp v.DataType req.AgentID req.Hostname,
            .incDataType (fmtSprint v.DataType), .incAgentID req.AgentID]
          ++ mid
          ++ (if sent then [.sendPBWithKey req.AgentID (outboundMessage env req v)] else []) := by
  by_cases h0 : v.DataType = 1000
  · refine ⟨(parseAgentHeartBeat env k v req conn).2
      ++ metricsAgentHeartBeat env.agentGauge req.AgentID "agent"
          (parseAgentHeartBeat env k v req conn).1, true, fun e he => ?_, ?_⟩
    · rcases List.mem_append.1 he with he | he
      · rcases parseAgentHeartBeat_events env k v req conn with ⟨err, -, hp⟩ | ⟨hb, d, -, hp⟩ <;>
          simp [hp] at he <;> subst he <;> rfl
      · obtain ⟨d, m, x, -, -, -, rfl⟩ := mem_metricsAgentHeartBeat he
        rfl
    · simp [recordEvents_agent env poolGet req conn k v h0]
  by_cases h1 : v.DataType = 1001
  · refine ⟨(parsePluginHeartBeat env k v).2
      ++ (match (parsePluginHeartBeat env k v).1 with
          | none => []
          | some detail =>
            match detail.lookup "name" with
            | some (.str name) =>
              metricsAgentHeartBeat env.agentGauge req.AgentID name (some detail)
            | _ => []), true, fun e he => ?_, ?_⟩
    · rcases List.mem_append.1 he with he | he
      · rcases parsePluginHeartBeat_events env k v with
          ⟨err, -, hp⟩ | ⟨data, -, -, hp⟩ | ⟨data, name, -, -, hp⟩ <;>
          simp [hp] at he <;> subst he <;> rfl
      · rcases hp : (parsePluginHeartBeat env k v).1 with _ | d
        · simp [hp] at he
        · rcases hn : d.lookup "name" with _ | (name | _ | _ | _) <;> simp [hp, hn] at he
          obtain ⟨d, m, x, -, -, -, rfl⟩ := mem_metricsAgentHeartBeat he
          rfl
    · simp [recordEvents_plugin env poolGet req conn k v h1]
  by_cases h2 : v.DataType = 2001 ∨ v.DataType = 2003 ∨ v.DataType = 6003
  · rw [recordEvents_task env poolGet req conn k v h2]
    rcases env.unmarshal v.Body with err | item
    · exact ⟨[.logParseRecordError err], false, by simp [Event.isPlain], by simp⟩
    · rcases hp : env.pushTaskError k item with _ | err
      · exact ⟨[.pushTask2Manager item], true, by simp [Event.isPlain], by simp [hp]⟩
      · exact ⟨[.pushTask2Manager item, .logPushTaskError err], true,
          by simp [Event.isPlain], by simp [hp]⟩
  by_cases h3 : v.DataType = 1010 ∨ v.DataType = 1011
  · rw [recordEvents_errorLog env poolGet req conn k v h3]
    rcases env.unmarshal v.Body with err | item
    · exact ⟨[.logParseRecordError err], false, by simp [Event.isPlain], by simp⟩
    · rcases hp : env.jsonMarshal item with err | b
      · exact ⟨[.collectLog req.AgentID item], false, by simp [Event.isPlain], by simp [hp]⟩
      · exact ⟨[.collectLog req.AgentID item, .logAgentErrorLog b], true,
          by simp [Event.isPlain], by simp [hp]⟩
  · simp only [not_or] at h2 h3
    refine ⟨[], true, by simp, ?_⟩
    simp [recordEvents_other env poolGet req conn k v h0 h1 h2.1 h2.2.1 h2.2.2 h3.1 h3.2]

theorem recordEvents_counters (env : Env F) (poolGet : Nat → MQData) (req : RawData)
    (conn : Connection) (k : Nat) (v : Record) (label : String) :
    dataTypeAdds label (recordEvents env poolGet req conn k v)
        = (if fmtSprint v.DataType = label then 1 else 0)
      ∧ agentIDAdds label (recordEvents env poolGet req conn k v)
        = (if req.AgentID = label then 1 else 0) := by
  obtain ⟨mid, sent, hmid, hs⟩ := recordEvents_shape env poolGet req conn k v
  obtain ⟨h1, h2, -⟩ := plain_events mid hmid label
  rw [hs]
  cases sent <;>
    simp [dataTypeAdds_append, agentIDAdds_append, dataTypeAdds, agentIDAdds, h1, h2]

theorem recordEvents_published (env : Env F) (poolGet : Nat → MQData) (req : RawData)
    (conn : Connection) (k : Nat) (v : Record) :
    published (recordEvents env poolGet req conn k v) = []
      ∨ published (recordEvents env poolGet req conn k v)
        = [(req.AgentID, outboundMessage env req v)] := by
  obtain ⟨mid, sent, hmid, hs⟩ := recordEvents_shape env poolGet req conn k v
  obtain ⟨-, -, h3⟩ := plain_events mid hmid ""
  rw [hs]
  cases sent <;> simp [published_append, published, h3]

theorem recordEvents_pool (env : Env F) (p1 p2 : Nat → MQData) (req : RawData)
    (conn : Connection) :
    recordEvents env p1 req conn = recordEvents env p2 req conn := by
  funext k v
  unfold recordEvents handleRecord
  cases env.getExtraInfoByID req.AgentID <;> simp

theorem mem_published_rangeData (env : Env F) (poolGet : Nat → MQData) (req : RawData)
    (conn : Connection) (xs : List Record) (k : Nat) (p : String × MQData)
    (h : p ∈ published (rangeData (recordEvents env poolGet req conn) k xs)) :
    ∃ v ∈ xs, p = (req.AgentID, outboundMessage env req v) := by
  induction xs generalizing k with
  | nil => simp [rangeData, published] at h
  | cons x xs ih =>
    rw [rangeData, published_append, List.mem_append] at h
    rcases h with h | h
    · rcases recordEvents_published env poolGet req conn k x with hp | hp <;>
        rw [hp] at h <;> simp at h
      exact ⟨x, List.mem_cons_self _ _, h⟩
    · obtain ⟨v, hv, hp⟩ := ih (k + 1) h
      exact ⟨v, List.mem_cons_of_mem _ hv, hp⟩

theorem counters_rangeData (env : Env F) (poolGet : Nat → MQData) (req : RawData)
    (conn : Connection) (xs : List Record) (k : Nat) (label : String) :
    dataTypeAdds label (rangeData (recordEvents env poolGet req conn) k xs)
        = xs.countP (fun r => fmtSprint r.DataType = label)
      ∧ agentIDAdds label (rangeData (recordEvents env poolGet req conn) k xs)
        = (if req.AgentID = label then xs.length else 0) := by
  induction xs generalizing k with
  | nil => simp [rangeData, dataTypeAdds, agentIDAdds]
  | cons x xs ih =>
    obtain ⟨h1, h2⟩ := recordEvents_counters env poolGet req conn k x label
    obtain ⟨i1, i2⟩ := ih (k + 1)
    rw [rangeData, dataTypeAdds_append, agentIDAdds_append, h1, h2, i1, i2, List.countP_cons]
    constructor
    · by_cases h : fmtSprint x.DataType = label <;> simp [h, Nat.add_comm]
    · by_cases h : req.AgentID = label <;> simp [h, Nat.add_comm]

theorem lookup_foldl_insert (f : String → String → Value F)
    (l : List (Sigma fun _ : String => String)) (hl : l.NodupKeys) (d : Detail F) (k : String) :
    (l.foldl (fun r a => r.insert a.1 (f a.1 a.2)) d).lookup k
      = match l.dlookup k with
        | some v => some (f k v)
        | none => d.lookup k := by
  induction l generalizing d with
  | nil => simp
  | cons a l ih =>
    obtain ⟨ha, hl2⟩ := List.nodupKeys_cons.1 hl
    rw [List.foldl_cons, ih hl2]
    by_cases hk : k = a.1
    · subst hk
      rw [List.dlookup_cons_eq, List.dlookup_eq_none.2 ha]
      simp
    · rw [List.dlookup_cons_ne _ _ hk]
      rcases l.dlookup k with _ | v
      · simp [AList.lookup_insert_ne hk]
      · rfl

theorem coerceFields_eq (env : Env F) (passKey : String) (hb : FieldMap) (detail : Detail F) :
    coerceFields env passKey hb detail
      = hb.entries.foldl (fun r a => r.insert a.1
          (if a.1 = passKey then Value.str a.2
            else match env.parseFloat a.2 with
              | some fv => Value.float64 fv
              | none => Value.str a.2)) detail := by
  unfold coerceFields AList.foldl
  congr 1
  funext r a
  by_cases h : a.1 = passKey
  · simp [h]
  · rcases hp : env.parseFloat a.2 with _ | fv <;> simp [h, hp]

theorem coerceFields_lookup (env : Env F) (passKey : String) (hb : FieldMap) (detail : Detail F)
    (k : String) :
    (coerceFields env passKey hb detail).lookup k
      = match hb.lookup k with
        | some v =>
          some (if k = passKey then Value.str v
            else match env.parseFloat v with
              | some fv => Value.float64 fv
              | none => Value.str v)
        | none => detail.lookup k := by
  rw [coerceFields_eq]
  exact lookup_foldl_insert (fun k v => if k = passKey then Value.str v
    else match env.parseFloat v with
      | some fv => Value.float64 fv
      | none => Value.str v) hb.entries hb.nodupKeys detail k

theorem parseAgentHeartBeat_ok (env : Env F) (k : Nat) (record : Record) (req : RawData)
    (conn : Connection) (hb : FieldMap) (hd : env.unmarshal record.Body = .ok hb) :
    ∃ detail : Detail F,
      parseAgentHeartBeat env k record req conn = (some detail, [.setAgentDetail detail])
      ∧ detail.lookup "agent_id" = some (.str req.AgentID)
      ∧ detail.lookup "agent_addr" = some (.str conn.SourceAddr)
      ∧ detail.lookup "create_at" = some (.int64 conn.CreateAt)
      ∧ detail.lookup "intranet_ipv4" = some (.strs (some (req.IntranetIPv4.getD [])))
      ∧ detail.lookup "extranet_ipv4" = some (.strs (some (req.ExtranetIPv4.getD [])))
      ∧ detail.lookup "intranet_ipv6" = some (.strs (some (req.IntranetIPv6.getD [])))
      ∧ detail.lookup "extranet_ipv6" = some (.strs (some (req.ExtranetIPv6.getD [])))
      ∧ detail.lookup "version" = some (.str req.Version)
      ∧ detail.lookup "hostname" = some (.str req.Hostname)
      ∧ detail.lookup "product" = some (.str req.Product)
      ∧ detail.lookup "last_heartbeat_time" = some (.int64 (env.now k))
      ∧ ∀ key, key ∉ adminKeys →
          detail.lookup key = (coerceFields env "platform_version" hb ∅).lookup key := by
  unfold parseAgentHeartBeat parseRecord
  simp only [hd, List.nil_append]
  refine ⟨_, rfl, ?_⟩
  rcases req.IntranetIPv4 with _ | l1 <;> rcases req.ExtranetIPv4 with _ | l2 <;>
    rcases req.IntranetIPv6 with _ | l3 <;> rcases req.ExtranetIPv6 with _ | l4 <;>
    (refine ⟨?_, ?_, ?_, ?_, ?_, ?_, ?_, ?_, ?_, ?_, ?_, fun key hkey => ?_⟩
     all_goals first
       | (simp only [adminKeys, List.mem_cons, List.mem_singleton, List.not_mem_nil, or_false,
            not_or] at hkey
          obtain ⟨h1, h2, h3, h4, h5, h6, h7, h8, h9, h10, h11⟩ := hkey
          simp [AList.lookup_insert_ne, h1, h2, h3, h4, h5, h6, h7, h8, h9, h10, h11])
       | simp [AList.lookup_insert, AList.lookup_insert_ne])

theorem parseAgentHeartBeat_error (env : Env F) (k : Nat) (record : Record) (req : RawData)
    (conn : Connection) (err : String) (hd : env.unmarshal record.Body = .error err) :
    parseAgentHeartBeat env k record req conn = (none, [.logParseRecordError err]) := by
  unfold parseAgentHeartBeat parseRecord
  simp only [hd]

theorem gaugesAfter_append (xs ys : List (Event F)) (g : Gauges F) :
    gaugesAfter (xs ++ ys) g = gaugesAfter ys (gaugesAfter xs g) := by
  simp [gaugesAfter, List.foldl_append]

theorem gaugesAfter_filterMap (detail : Detail F) (agentID name : String) (l : List String)
    (g : Gauges F) (m a n : String) :
    gaugesAfter (l.filterMap (fun k =>
        match detail.lookup k with
        | some (.float64 fv) => some (.gaugeSet k agentID name fv)
        | _ => none)) g m a n
      = if m ∈ l ∧ a = agentID ∧ n = name then
          (match detail.lookup m with
            | some (.float64 x) => some x
            | _ => g m a n)
        else g m a n := by
  induction l generalizing g with
  | nil => simp [gaugesAfter]
  | cons k l ih =>
    rcases hk : detail.lookup k with _ | (s | x | i | ss)
    case some.float64 =>
      rw [List.filterMap_cons]
      simp only [hk]
      have hstep : gaugesAfter (Event.gaugeSet k agentID name x :: l.filterMap (fun k =>
            match detail.lookup k with
            | some (.float64 fv) => some (.gaugeSet k agentID name fv)
            | _ => none)) g
          = gaugesAfter (l.filterMap (fun k =>
            match detail.lookup k with
            | some (.float64 fv) => some (.gaugeSet k agentID name fv)
            | _ => none)) (Event.applyGauge g (.gaugeSet k agentID name x)) := rfl
      rw [hstep, ih]
      by_cases hm : m = k
      · subst hm
        by_cases ha : a = agentID ∧ n = name
        · simp [hk, ha, Event.applyGauge]
        · have ha2 : ¬ (m ∈ l ∧ a = agentID ∧ n = name) := fun h => ha h.2
          have ha3 : ¬ (m ∈ m :: l ∧ a = agentID ∧ n = name) := fun h => ha h.2
          have ha4 : ¬ (m = m ∧ a = agentID ∧ n = name) := fun h => ha h.2
          simp only [ha2, ha3, if_false, Event.applyGauge, ha4]
          simp [ha]
      · have hne : ¬ (m = k ∧ a = agentID ∧ n = name) := fun h => hm h.1
        simp [hm, Event.applyGauge]
    all_goals
      rw [List.filterMap_cons]
      simp only [hk]
      rw [ih]
      by_cases hm : m = k
      · subst hm
        simp [hk]
      · simp [hm]

theorem gaugesAfter_metricsAgentHeartBeat (agentGauge : List String) (agentID subject : String)
    (detail : Option (Detail F)) (g : Gauges F) (m a n : String) :
    gaugesAfter (metricsAgentHeartBeat agentGauge agentID subject detail) g m a n
      = match detail with
        | none => g m a n
        | some d =>
          if m ∈ agentGauge ∧ a = agentID ∧ n = subject then
            (match d.lookup m with
              | some (.float64 x) => some x
              | _ => g m a n)
          else g m a n := by
  cases detail with
  | none => rfl
  | some d => rw [metricsAgentHeartBeat_some]; exact gaugesAfter_filterMap d _ _ _ g m a n

theorem gaugesAfter_heartbeat (env : Env F) (poolGet : Nat → MQData) (req : RawData)
    (conn : Connection) (k : Nat) (v : Record) (g : Gauges F) (ht : v.DataType = 1000) :
    gaugesAfter (recordEvents env poolGet req conn k v) g
      = gaugesAfter (metricsAgentHeartBeat env.agentGauge req.AgentID "agent"
          (parseAgentHeartBeat env k v req conn).1) g := by
  rw [recordEvents_agent env poolGet req conn k v ht]
  simp only [gaugesAfter_append]
  rcases parseAgentHeartBeat_events env k v req conn with ⟨err, -, hp⟩ | ⟨hb, d, -, hp⟩ <;>
    simp [hp, gaugesAfter, Event.applyGauge]

/-! ## The claims -/

/-- C1 (the code departs from it): a batch whose only record has the task type
2001 and a body that does not decode is handled without any call of
`SendPBWithKey`: the `continue` after the failed `parseRecord` leaves the loop
body before the publish, so the batch of one record publishes nothing. -/
theorem handleRawData_drops_undecodable_task_record :
    (sampleBatch [{ DataType := 2001, Timestamp := 5, Body := [0] }]).Data.length = 1
      ∧ (handleRawData sampleEnv samplePool
          (sampleBatch [{ DataType := 2001, Timestamp := 5, Body := [0] }]) sampleConn).1
        = [.logDebug 0 5 2001 "A" "host", .incDataType (fmtSprint 2001), .incAgentID "A",
            .logParseRecordError "proto: cannot parse invalid wire-format data"]
      ∧ published (handleRawData sampleEnv samplePool
          (sampleBatch [{ DataType := 2001, Timestamp := 5, Body := [0] }]) sampleConn).1
        = [] :=
  ⟨rfl, rfl, rfl⟩

/-- C2: when a record of type 2001, 2003 or 6003 does not decode, its events
are the debug line, the two counter increments and the decode error line, with
no call of the task service; the records before and after it are handled in
full, and their events are the ones of the run in which any other record `r2`
(for instance one that decodes) stands in the place of the failing one. -/
theorem handleRawData_task_decode_failure (env : Env F) (poolGet : Nat → MQData)
    (req : RawData) (conn : Connection) (pre post : List Record) (r : Record) (err : String)
    (hreq : req.Data = pre ++ r :: post)
    (ht : r.DataType = 2001 ∨ r.DataType = 2003 ∨ r.DataType = 6003)
    (hd : env.unmarshal r.Body = .error err) :
    (handleRawData env poolGet req conn).1
        = rangeData (recordEvents env poolGet req conn) 0 pre
          ++ [.logDebug pre.length r.Timestamp r.DataType req.AgentID req.Hostname,
              .incDataType (fmtSprint r.DataType), .incAgentID req.AgentID,
              .logParseRecordError err]
          ++ rangeData (recordEvents env poolGet req conn) (pre.length + 1) post
      ∧ ∀ r2 : Record,
          (handleRawData env poolGet { req with Data := pre ++ r2 :: post } conn).1
            = rangeData (recordEvents env poolGet req conn) 0 pre
              ++ recordEvents env poolGet req conn pre.length r2
              ++ rangeData (recordEvents env poolGet req conn) (pre.length + 1) post := by
  constructor
  · rw [handleRawData_trace, hreq, rangeData_split]
    congr 2
    unfold recordEvents handleRecord
    cases env.getExtraInfoByID req.AgentID <;>
      rcases ht with h | h | h <;> simp [h, parseRecord, hd]
  · intro r2
    rw [handleRawData_trace, recordEvents_data]
    exact rangeData_split _ pre post r2

theorem handleRawData_task_decode_failure_witness :
    (handleRawData sampleEnv samplePool
        (sampleBatch [⟨1000, 4, [1]⟩, ⟨6003, 5, [0]⟩, ⟨1000, 6, [2]⟩]) sampleConn).1
        = rangeData (recordEvents sampleEnv samplePool
            (sampleBatch [⟨1000, 4, [1]⟩, ⟨6003, 5, [0]⟩, ⟨1000, 6, [2]⟩]) sampleConn) 0
            [⟨1000, 4, [1]⟩]
          ++ [.logDebug 1 5 6003 "A" "host", .incDataType (fmtSprint 6003), .incAgentID "A",
              .logParseRecordError "proto: cannot parse invalid wire-format data"]
          ++ rangeData (recordEvents sampleEnv samplePool
            (sampleBatch [⟨1000, 4, [1]⟩, ⟨6003, 5, [0]⟩, ⟨1000, 6, [2]⟩]) sampleConn) 2
            [⟨1000, 6, [2]⟩] :=
  (handleRawData_task_decode_failure sampleEnv samplePool
    (sampleBatch [⟨1000, 4, [1]⟩, ⟨6003, 5, [0]⟩, ⟨1000, 6, [2]⟩]) sampleConn
    [⟨1000, 4, [1]⟩] [⟨1000, 6, [2]⟩] ⟨6003, 5, [0]⟩
    "proto: cannot parse invalid wire-format data" rfl (by decide) rfl).1

/-- C3: a record of type 1001 whose body decodes to a field map without the
key `name` yields exactly the debug line, one `data_type` increment, one
`agent_id` increment, the missing-name error line and one `SendPBWithKey`: no
`SetPluginDetail` and no gauge `Set`; the rest of the batch is handled around
it. -/
theorem handleRawData_plugin_heartbeat_without_name (env : Env F) (poolGet : Nat → MQData)
    (req : RawData) (conn : Connection) (pre post : List Record) (v : Record) (data : FieldMap)
    (hreq : req.Data = pre ++ v :: post) (ht : v.DataType = 1001)
    (hd : env.unmarshal v.Body = .ok data) (hn : data.lookup "name" = none) :
    (handleRawData env poolGet req conn).1
      = rangeData (recordEvents env poolGet req conn) 0 pre
        ++ [.logDebug pre.length v.Timestamp v.DataType req.AgentID req.Hostname,
            .incDataType (fmtSprint v.DataType), .incAgentID req.AgentID,
            .logPluginNameMissing data, .sendPBWithKey req.AgentID (outboundMessage env req v)]
        ++ rangeData (recordEvents env poolGet req conn) (pre.length + 1) post := by
  rw [handleRawData_trace, hreq, rangeData_split]
  congr 2
  unfold recordEvents handleRecord outboundMessage
  cases env.getExtraInfoByID req.AgentID <;>
    simp [ht, parsePluginHeartBeat, parseRecord, hd, hn]

theorem handleRawData_plugin_heartbeat_without_name_witness :
    (handleRawData sampleEnv samplePool (sampleBatch [⟨1001, 5, [1]⟩]) sampleConn).1
      = rangeData (recordEvents sampleEnv samplePool (sampleBatch [⟨1001, 5, [1]⟩]) sampleConn)
          0 []
        ++ [.logDebug 0 5 1001 "A" "host", .incDataType (fmtSprint 1001), .incAgentID "A",
            .logPluginNameMissing (fieldMapOf [("mem", "10")]),
            .sendPBWithKey "A" (outboundMessage sampleEnv (sampleBatch [⟨1001, 5, [1]⟩])
              ⟨1001, 5, [1]⟩)]
        ++ rangeData (recordEvents sampleEnv samplePool (sampleBatch [⟨1001, 5, [1]⟩])
          sampleConn) 1 [] :=
  handleRawData_plugin_heartbeat_without_name sampleEnv samplePool
    (sampleBatch [⟨1001, 5, [1]⟩]) sampleConn [] [] ⟨1001, 5, [1]⟩
    (fieldMapOf [("mem", "10")]) rfl rfl rfl (by decide)

/-- C4: the calls a record can cause are fixed by its type code alone.  A
record of type 1000 causes no `SetPluginDetail`, `PushTask2Manager` or
`CollectLog` and sets gauges only under the subject `agent`; one of type 1001
causes no `SetAgentDetail`, `PushTask2Manager` or `CollectLog`; one of type
2001, 2003 or 6003 causes no `SetAgentDetail`, `SetPluginDetail`, gauge `Set`
or `CollectLog`; one of type 1010 or 1011 causes no `SetAgentDetail`,
`SetPluginDetail`, gauge `Set` or `PushTask2Manager`; any other type causes
only the debug line, the two counter increments and the publish.  The path
of the type code does run: the events of `parseAgentHeartBeat` and of
`metricsAgentHeartBeat` with the subject `agent`, respectively those of
`parsePluginHeartBeat`, are among the events of the record, and a decoded
item is handed to `PushTask2Manager`, respectively to `CollectLog`. -/
theorem recordEvents_routing_table (env : Env F) (poolGet : Nat → MQData) (req : RawData)
    (conn : Connection) (k : Nat) (v : Record) :
    (v.DataType = 1000 →
        (∀ e ∈ recordEvents env poolGet req conn k v,
          e.isSetPluginDetail = false ∧ e.isPushTask = false ∧ e.isCollectLog = false
            ∧ ∀ m a n x, e = .gaugeSet m a n x → n = "agent")
        ∧ ∀ e ∈ (parseAgentHeartBeat env k v req conn).2
              ++ metricsAgentHeartBeat env.agentGauge req.AgentID "agent"
                  (parseAgentHeartBeat env k v req conn).1,
            e ∈ recordEvents env poolGet req conn k v)
    ∧ (v.DataType = 1001 →
        (∀ e ∈ recordEvents env poolGet req conn k v,
          e.isSetAgentDetail = false ∧ e.isPushTask = false ∧ e.isCollectLog = false)
        ∧ ∀ e ∈ (parsePluginHeartBeat env k v).2, e ∈ recordEvents env poolGet req conn k v)
    ∧ (v.DataType = 2001 ∨ v.DataType = 2003 ∨ v.DataType = 6003 →
        (∀ e ∈ recordEvents env poolGet req conn k v,
          e.isSetAgentDetail = false ∧ e.isSetPluginDetail = false ∧ e.isGaugeSet = false
            ∧ e.isCollectLog = false)
        ∧ ∀ item, env.unmarshal v.Body = .ok item →
            .pushTask2Manager item ∈ recordEvents env poolGet req conn k v)
    ∧ (v.DataType = 1010 ∨ v.DataType = 1011 →
        (∀ e ∈ recordEvents env poolGet req conn k v,
          e.isSetAgentDetail = false ∧ e.isSetPluginDetail = false ∧ e.isGaugeSet = false
            ∧ e.isPushTask = false)
        ∧ ∀ item, env.unmarshal v.Body = .ok item →
            .collectLog req.AgentID item ∈ recordEvents env poolGet req conn k v)
    ∧ (v.DataType ∉ [1000, 1001, 2001, 2003, 6003, 1010, 1011] →
        recordEvents env poolGet req conn k v
            = [.logDebug k v.Timestamp v.DataType req.AgentID req.Hostname,
                .incDataType (fmtSprint v.DataType), .incAgentID req.AgentID,
                .sendPBWithKey req.AgentID (outboundMessage env req v)]
          ∧ ∀ e ∈ recordEvents env poolGet req conn k v,
              e.isSetAgentDetail = false ∧ e.isSetPluginDetail = false ∧ e.isGaugeSet = false
                ∧ e.isPushTask = false ∧ e.isCollectLog = false) := by
  refine ⟨fun ht => ⟨fun e he => ?_, fun e he => ?_⟩, fun ht => ⟨fun e he => ?_, fun e he => ?_⟩,
    fun ht => ⟨fun e he => ?_, fun item hu => ?_⟩,
    fun ht => ⟨fun e he => ?_, fun item hu => ?_⟩, fun ht => ?_⟩
  · rw [recordEvents_agent env poolGet req conn k v ht] at he
    simp only [List.mem_append, List.mem_cons, List.mem_singleton, List.not_mem_nil,
      or_false] at he
    rcases he with (((he | he | he) | he) | he) | he
    · subst he; simp [Event.isSetPluginDetail, Event.isPushTask, Event.isCollectLog]
    · subst he; simp [Event.isSetPluginDetail, Event.isPushTask, Event.isCollectLog]
    · subst he; simp [Event.isSetPluginDetail, Event.isPushTask, Event.isCollectLog]
    · rcases parseAgentHeartBeat_events env k v req conn with ⟨err, -, hp⟩ | ⟨hb, d, -, hp⟩ <;>
        simp [hp] at he <;> subst he <;>
        simp [Event.isSetPluginDetail, Event.isPushTask, Event.isCollectLog]
    · obtain ⟨d, m, x, -, -, -, rfl⟩ := mem_metricsAgentHeartBeat he
      simp only [Event.isSetPluginDetail, Event.isPushTask, Event.isCollectLog, true_and]
      intro m2 a n x2 h
      cases h
      rfl
    · subst he; simp [Event.isSetPluginDetail, Event.isPushTask, Event.isCollectLog]
  · rw [recordEvents_agent env poolGet req conn k v ht]
    rcases List.mem_append.1 he with h | h <;> simp [h]
  · rw [recordEvents_plugin env poolGet req conn k v ht] at he
    simp only [List.mem_append, List.mem_cons, List.mem_singleton, List.not_mem_nil,
      or_false] at he
    rcases he with (((he | he | he) | he) | he) | he
    · subst he; simp [Event.isSetAgentDetail, Event.isPushTask, Event.isCollectLog]
    · subst he; simp [Event.isSetAgentDetail, Event.isPushTask, Event.isCollectLog]
    · subst he; simp [Event.isSetAgentDetail, Event.isPushTask, Event.isCollectLog]
    · rcases parsePluginHeartBeat_events env k v with
        ⟨err, -, hp⟩ | ⟨data, -, -, hp⟩ | ⟨data, name, -, -, hp⟩ <;>
        simp [hp] at he <;> subst he <;>
        simp [Event.isSetAgentDetail, Event.isPushTask, Event.isCollectLog]
    · rcases hp : (parsePluginHeartBeat env k v).1 with _ | d
      · simp [hp] at he
      · rcases hn : d.lookup "name" with _ | (name | _ | _ | _) <;> simp [hp, hn] at he
        obtain ⟨d, m, x, -, -, -, rfl⟩ := mem_metricsAgentHeartBeat he
        simp [Event.isSetAgentDetail, Event.isPushTask, Event.isCollectLog]
    · subst he; simp [Event.isSetAgentDetail, Event.isPushTask, Event.isCollectLog]
  · rw [recordEvents_plugin env poolGet req conn k v ht]
    simp [he]
  · rw [recordEvents_task env poolGet req conn k v ht] at he
    rcases hu : env.unmarshal v.Body with err | item
    · simp [hu] at he
      rcases he with rfl | rfl | rfl | rfl <;>
        simp [Event.isSetAgentDetail, Event.isSetPluginDetail, Event.isGaugeSet,
          Event.isCollectLog]
    · rcases hp : env.pushTaskError k item with _ | err <;> simp [hu, hp] at he <;>
        rcases he with rfl | rfl | rfl | rfl | rfl | rfl <;>
        simp [Event.isSetAgentDetail, Event.isSetPluginDetail, Event.isGaugeSet,
          Event.isCollectLog]
  · rw [recordEvents_task env poolGet req conn k v ht, hu]
    rcases hp : env.pushTaskError k item with _ | err <;> simp [hp]
  · rw [recordEvents_errorLog env poolGet req conn k v ht] at he
    rcases hu : env.unmarshal v.Body with err | item
    · simp [hu] at he
      rcases he with rfl | rfl | rfl | rfl <;>
        simp [Event.isSetAgentDetail, Event.isSetPluginDetail, Event.isGaugeSet,
          Event.isPushTask]
    · rcases hp : env.jsonMarshal item with err | b <;> simp [hu, hp] at he <;>
        rcases he with rfl | rfl | rfl | rfl | rfl | rfl <;>
        simp [Event.isSetAgentDetail, Event.isSetPluginDetail, Event.isGaugeSet,
          Event.isPushTask]
  · rw [recordEvents_errorLog env poolGet req conn k v ht, hu]
    rcases hp : env.jsonMarshal item with err | b <;> simp [hp]
  · simp only [List.mem_cons, List.mem_singleton, List.not_mem_nil, or_false, not_or] at ht
    obtain ⟨h0, h1, h2, h3, h4, h5, h6⟩ := ht
    have hs := recordEvents_other env poolGet req conn k v h0 h1 h2 h3 h4 h5 h6
    refine ⟨hs, fun e he => ?_⟩
    rw [hs] at he
    simp at he
    rcases he with rfl | rfl | rfl | rfl <;>
      simp [Event.isSetAgentDetail, Event.isSetPluginDetail, Event.isGaugeSet,
        Event.isPushTask, Event.isCollectLog]

theorem recordEvents_routing_table_witness :
    (∀ e ∈ recordEvents sampleEnv samplePool (sampleBatch []) sampleConn 0 ⟨1000, 4, [1]⟩,
        e.isSetPluginDetail = false ∧ e.isPushTask = false ∧ e.isCollectLog = false
          ∧ ∀ m a n x, e = .gaugeSet m a n x → n = "agent")
    ∧ (∀ e ∈ recordEvents sampleEnv samplePool (sampleBatch []) sampleConn 0 ⟨1001, 4, [4]⟩,
        e.isSetAgentDetail = false ∧ e.isPushTask = false ∧ e.isCollectLog = false)
    ∧ (∀ e ∈ recordEvents sampleEnv samplePool (sampleBatch []) sampleConn 0 ⟨2003, 4, [1]⟩,
        e.isSetAgentDetail = false ∧ e.isSetPluginDetail = false ∧ e.isGaugeSet = false
          ∧ e.isCollectLog = false)
    ∧ (∀ e ∈ recordEvents sampleEnv samplePool (sampleBatch []) sampleConn 0 ⟨1011, 4, [1]⟩,
        e.isSetAgentDetail = false ∧ e.isSetPluginDetail = false ∧ e.isGaugeSet = false
          ∧ e.isPushTask = false)
    ∧ recordEvents sampleEnv samplePool (sampleBatch []) sampleConn 0 ⟨4000, 4, [1]⟩
        = [.logDebug 0 4 4000 "A" "host", .incDataType (fmtSprint 4000), .incAgentID "A",
            .sendPBWithKey "A" (outboundMessage sampleEnv (sampleBatch []) ⟨4000, 4, [1]⟩)] :=
  ⟨((recordEvents_routing_table sampleEnv samplePool (sampleBatch []) sampleConn 0
      ⟨1000, 4, [1]⟩).1 rfl).1,
    ((recordEvents_routing_table sampleEnv samplePool (sampleBatch []) sampleConn 0
      ⟨1001, 4, [4]⟩).2.1 rfl).1,
    ((recordEvents_routing_table sampleEnv samplePool (sampleBatch []) sampleConn 0
      ⟨2003, 4, [1]⟩).2.2.1 (by decide)).1,
    ((recordEvents_routing_table sampleEnv samplePool (sampleBatch []) sampleConn 0
      ⟨1011, 4, [1]⟩).2.2.2.1 (by decide)).1,
    ((recordEvents_routing_table sampleEnv samplePool (sampleBatch []) sampleConn 0
      ⟨4000, 4, [1]⟩).2.2.2.2 (by decide)).1⟩

/-- C5: the coercion loop of `parseAgentHeartBeat` (`passKey` is
`platform_version`) and of `parsePluginHeartBeat` (`passKey` is `pversion`),
run on a fresh map, stores for every key `k` of the decoded field map the
original string as text when `k` is the passthrough key, and otherwise the
number `strconv.ParseFloat` returns, or the original string as text when the
value does not parse.  For `{"cpu":"1.5","platform_version":"v1"}` with the
passthrough key `platform_version` this gives `cpu` the number parsed from
`1.5` and `platform_version` the text `v1`.  The details the two parsers
return hold these values at every decoded key that the parser does not
overwrite after its loop. -/
theorem coerceFields_normalizes (env : Env F) :
    (∀ (passKey : String) (hb : FieldMap) (k v : String), hb.lookup k = some v →
      (coerceFields env passKey hb ∅).lookup k
        = some (if k = passKey then Value.str v
            else match env.parseFloat v with
              | some fv => Value.float64 fv
              | none => Value.str v))
    ∧ (∀ x : F, env.parseFloat "1.5" = some x →
      (coerceFields env "platform_version"
            (fieldMapOf [("cpu", "1.5"), ("platform_version", "v1")]) ∅).lookup "cpu"
          = some (Value.float64 x)
        ∧ (coerceFields env "platform_version"
            (fieldMapOf [("cpu", "1.5"), ("platform_version", "v1")]) ∅).lookup
              "platform_version"
          = some (Value.str "v1"))
    ∧ (∀ (i : Nat) (record : Record) (req : RawData) (conn : Connection) (hb : FieldMap)
        (k v : String),
      env.unmarshal record.Body = .ok hb → hb.lookup k = some v → k ∉ adminKeys →
      ∃ d : Detail F, (parseAgentHeartBeat env i record req conn).1 = some d
        ∧ d.lookup k
          = some (if k = "platform_version" then Value.str v
              else match env.parseFloat v with
                | some fv => Value.float64 fv
                | none => Value.str v))
    ∧ ∀ (i : Nat) (record : Record) (data : FieldMap) (n k v : String),
      env.unmarshal record.Body = .ok data → data.lookup "name" = some n →
      data.lookup k = some v → k ≠ "last_heartbeat_time" →
      ∃ d : Detail F, (parsePluginHeartBeat env i record).1 = some d
        ∧ d.lookup k
          = some (if k = "pversion" then Value.str v
              else match env.parseFloat v with
                | some fv => Value.float64 fv
                | none => Value.str v) := by
  refine ⟨fun passKey hb k v hk => ?_, fun x hx => ⟨?_, ?_⟩,
    fun i record req conn hb k v hd hk hadmin => ?_,
    fun i record data n k v hd hn hk hne => ?_⟩
  · rw [coerceFields_lookup, hk]
  · rw [coerceFields_lookup]
    have h : (fieldMapOf [("cpu", "1.5"), ("platform_version", "v1")]).lookup "cpu"
        = some "1.5" := by decide
    rw [h]
    simp [hx]
  · rw [coerceFields_lookup]
    have h : (fieldMapOf [("cpu", "1.5"), ("platform_version", "v1")]).lookup
        "platform_version" = some "v1" := by decide
    rw [h]
    simp
  · obtain ⟨d, hp, -, -, -, -, -, -, -, -, -, -, -, hother⟩ :=
      parseAgentHeartBeat_ok env i record req conn hb hd
    refine ⟨d, by rw [hp], ?_⟩
    rw [hother k hadmin, coerceFields_lookup, hk]
  · rcases parsePluginHeartBeat_events env i record with
      ⟨err, he, -⟩ | ⟨data2, he, hn2, -⟩ | ⟨data2, name, he, hn2, hp⟩
    · rw [hd] at he; cases he
    · rw [hd] at he; cases he; rw [hn] at hn2; cases hn2
    · rw [hd] at he
      cases he
      refine ⟨_, by rw [hp], ?_⟩
      rw [AList.lookup_insert_ne hne, coerceFields_lookup, hk]

theorem coerceFields_normalizes_witness :
    ((coerceFields sampleEnv "pversion"
          (fieldMapOf [("name", "scanner"), ("cpu", "1.5")]) ∅).lookup "name"
        = some (Value.str "scanner"))
      ∧ ((coerceFields sampleEnv "platform_version"
            (fieldMapOf [("cpu", "1.5"), ("platform_version", "v1")]) ∅).lookup "cpu"
          = some (Value.float64 (3 / 2))
        ∧ (coerceFields sampleEnv "platform_version"
            (fieldMapOf [("cpu", "1.5"), ("platform_version", "v1")]) ∅).lookup
              "platform_version"
          = some (Value.str "v1"))
      ∧ (∃ d : Detail ℚ,
          (parseAgentHeartBeat sampleEnv 0 ⟨1000, 4, [5]⟩ (sampleBatch []) sampleConn).1 = some d
            ∧ d.lookup "platform_version" = some (Value.str "v1"))
      ∧ ∃ d : Detail ℚ, (parsePluginHeartBeat sampleEnv 0 ⟨1001, 4, [4]⟩).1 = some d
          ∧ d.lookup "cpu" = some (Value.float64 (3 / 2)) :=
  ⟨(coerceFields_normalizes sampleEnv).1 "pversion"
      (fieldMapOf [("name", "scanner"), ("cpu", "1.5")]) "name" "scanner" (by decide),
    (coerceFields_normalizes sampleEnv).2.1 (3 / 2) rfl,
    (coerceFields_normalizes sampleEnv).2.2.1 0 ⟨1000, 4, [5]⟩ (sampleBatch []) sampleConn
      (fieldMapOf [("cpu", "1.5"), ("platform_version", "v1")]) "platform_version" "v1"
      rfl (by decide) (by decide),
    (coerceFields_normalizes sampleEnv).2.2.2 0 ⟨1001, 4, [4]⟩
      (fieldMapOf [("name", "scanner"), ("cpu", "1.5")]) "scanner" "cpu" "1.5"
      rfl (by decide) (by decide) (by decide)⟩

/-- C6: every message that a run of `handleRawData` publishes is keyed by the
agent id of the batch and is, field by field, determined by one record of the
batch, the batch, the receipt time of the batch and the session tag (empty
when the registry has no entry); and the whole run, the published messages
included, is the same for any other contents of the pooled objects. -/
theorem handleRawData_full_overwrite (env : Env F) (req : RawData) (conn : Connection)
    (poolGet : Nat → MQData) :
    (∀ (key : String) (msg : MQData),
      (key, msg) ∈ published (handleRawData env poolGet req conn).1 →
      key = req.AgentID
        ∧ ∃ v ∈ req.Data,
          msg.DataType = v.DataType ∧ msg.AgentTime = v.Timestamp ∧ msg.Body = v.Body
          ∧ msg.AgentID = req.AgentID
          ∧ msg.IntranetIPv4 = stringsJoin req.IntranetIPv4 ","
          ∧ msg.ExtranetIPv4 = stringsJoin req.ExtranetIPv4 ","
          ∧ msg.IntranetIPv6 = stringsJoin req.IntranetIPv6 ","
          ∧ msg.ExtranetIPv6 = stringsJoin req.ExtranetIPv6 ","
          ∧ msg.Hostname = req.Hostname ∧ msg.Version = req.Version
          ∧ msg.Product = req.Product
          ∧ msg.SvrTime = env.svrTime ∧ msg.PSMName = "" ∧ msg.PSMPath = ""
          ∧ msg.Tag = (match env.getExtraInfoByID req.AgentID with
              | some info => info.Tags
              | none => ""))
    ∧ ∀ otherPool : Nat → MQData,
        handleRawData env otherPool req conn = handleRawData env poolGet req conn := by
  constructor
  · intro key msg h
    rw [handleRawData_trace] at h
    obtain ⟨v, hv, hp⟩ := mem_published_rangeData env poolGet req conn req.Data 0 _ h
    cases hp
    exact ⟨rfl, v, hv, rfl, rfl, rfl, rfl, rfl, rfl, rfl, rfl, rfl, rfl, rfl, rfl, rfl, rfl,
      rfl⟩
  · intro otherPool
    unfold handleRawData
    have := recordEvents_pool env otherPool poolGet req conn
    unfold recordEvents at this
    simp only [this]

theorem handleRawData_full_overwrite_witness :
    ("A", outboundMessage sampleEnv (sampleBatch [⟨1000, 4, [1]⟩]) ⟨1000, 4, [1]⟩)
        ∈ published (handleRawData sampleEnv samplePool (sampleBatch [⟨1000, 4, [1]⟩])
            sampleConn).1
      ∧ "A" = (sampleBatch [⟨1000, 4, [1]⟩]).AgentID
      ∧ handleRawData sampleEnv freshPool (sampleBatch [⟨1000, 4, [1]⟩]) sampleConn
        = handleRawData sampleEnv samplePool (sampleBatch [⟨1000, 4, [1]⟩]) sampleConn :=
  ⟨List.Mem.head _,
    ((handleRawData_full_overwrite sampleEnv (sampleBatch [⟨1000, 4, [1]⟩]) sampleConn
      samplePool).1 "A"
      (outboundMessage sampleEnv (sampleBatch [⟨1000, 4, [1]⟩]) ⟨1000, 4, [1]⟩)
      (List.Mem.head _)).1,
    (handleRawData_full_overwrite sampleEnv (sampleBatch [⟨1000, 4, [1]⟩]) sampleConn
      samplePool).2 freshPool⟩

/-- C7: one run of `handleRawData` on a batch of `N` records adds one to the
`agent_id` counter labelled with the agent id of the batch exactly `N` times
(and to no other `agent_id` label), and adds one to the `data_type` counter
labelled with the rendering of a type code `t` exactly as many times as the
batch has records of type `t`, whatever the types and whether or not the
bodies decode. -/
theorem handleRawData_counters (env : Env F) (poolGet : Nat → MQData) (req : RawData)
    (conn : Connection) :
    agentIDAdds req.AgentID (handleRawData env poolGet req conn).1 = req.Data.length
      ∧ (∀ label : String, agentIDAdds label (handleRawData env poolGet req conn).1
          = if label = req.AgentID then req.Data.length else 0)
      ∧ ∀ t : Int, dataTypeAdds (fmtSprint t) (handleRawData env poolGet req conn).1
          = req.Data.countP (fun r => r.DataType = t) := by
  rw [handleRawData_trace]
  refine ⟨?_, fun label => ?_, fun t => ?_⟩
  · simp [(counters_rangeData env poolGet req conn req.Data 0 req.AgentID).2]
  · rw [(counters_rangeData env poolGet req conn req.Data 0 label).2]
    by_cases h : req.AgentID = label
    · simp [h]
    · simp [h, Ne.symm h]
  · rw [(counters_rangeData env poolGet req conn req.Data 0 (fmtSprint t)).1]
    congr 1
    funext r
    simp [fmtSprint_injective.eq_iff]

/-- C8: `metricsAgentHeartBeat` leaves the gauge cell of the metric `m` under
the labels `(a, n)` at the `float64` value the detail holds under `m` when `m`
is a key of `agentGauge` and `(a, n)` are the given agent id and subject, and
leaves every other cell, and every cell when the detail is nil, as it was.
Hence, with a `mem` gauge, an agent heartbeat `{"mem":"10"}` sets the `mem`
cell of the agent to the number parsed from `10`, and a following heartbeat
with the empty field map leaves it there. -/
theorem metricsAgentHeartBeat_gauges (env : Env F) :
    (∀ (agentGauge : List String) (agentID subject : String) (detail : Option (Detail F))
        (g : Gauges F) (m a n : String),
      gaugesAfter (metricsAgentHeartBeat agentGauge agentID subject detail) g m a n
        = match detail with
          | none => g m a n
          | some d =>
            if m ∈ agentGauge ∧ a = agentID ∧ n = subject then
              (match d.lookup m with
                | some (.float64 x) => some x
                | _ => g m a n)
            else g m a n)
    ∧ ∀ (poolGet : Nat → MQData) (conn : Connection) (req1 req2 : RawData) (r1 r2 : Record)
        (ten : F) (g : Gauges F),
      "mem" ∈ env.agentGauge → env.parseFloat "10" = some ten →
      req1.Data = [r1] → req2.Data = [r2] → req2.AgentID = req1.AgentID →
      r1.DataType = 1000 → r2.DataType = 1000 →
      env.unmarshal r1.Body = .ok (fieldMapOf [("mem", "10")]) →
      env.unmarshal r2.Body = .ok ∅ →
      gaugesAfter (handleRawData env poolGet req1 conn).1 g "mem" req1.AgentID "agent"
          = some ten
        ∧ gaugesAfter (handleRawData env poolGet req2 conn).1
            (gaugesAfter (handleRawData env poolGet req1 conn).1 g) "mem" req1.AgentID "agent"
          = some ten := by
  refine ⟨gaugesAfter_metricsAgentHeartBeat, ?_⟩
  intro poolGet conn req1 req2 r1 r2 ten g hmem hten hr1 hr2 hid ht1 ht2 hd1 hd2
  have hnot : "mem" ∉ adminKeys := by decide
  have h1 : gaugesAfter (handleRawData env poolGet req1 conn).1 g "mem" req1.AgentID "agent"
      = some ten := by
    rw [handleRawData_trace, hr1]
    simp only [rangeData, List.append_nil]
    rw [gaugesAfter_heartbeat env poolGet req1 conn 0 r1 g ht1,
      gaugesAfter_metricsAgentHeartBeat]
    obtain ⟨d, hp, -, -, -, -, -, -, -, -, -, -, -, hother⟩ :=
      parseAgentHeartBeat_ok env 0 r1 req1 conn _ hd1
    have hl : d.lookup "mem" = some (.float64 ten) := by
      have hm : (fieldMapOf [("mem", "10")]).lookup "mem" = some "10" := by decide
      rw [hother "mem" hnot, coerceFields_lookup, hm]
      simp [hten]
    simp [hp, hmem, hl]
  refine ⟨h1, ?_⟩
  rw [handleRawData_trace env poolGet req2, hr2]
  simp only [rangeData, List.append_nil]
  rw [gaugesAfter_heartbeat env poolGet req2 conn 0 r2 _ ht2,
    gaugesAfter_metricsAgentHeartBeat]
  obtain ⟨d, hp, -, -, -, -, -, -, -, -, -, -, -, hother⟩ :=
    parseAgentHeartBeat_ok env 0 r2 req2 conn _ hd2
  have hl : d.lookup "mem" = none := by
    rw [hother "mem" hnot, coerceFields_lookup]
    simp
  simp [hp, hl, h1]

theorem metricsAgentHeartBeat_gauges_witness :
    gaugesAfter (handleRawData sampleEnv samplePool (sampleBatch [⟨1000, 4, [1]⟩])
        sampleConn).1 (fun _ _ _ => none) "mem" "A" "agent" = some 10
      ∧ gaugesAfter (handleRawData sampleEnv samplePool (sampleBatch [⟨1000, 9, [2]⟩])
          sampleConn).1
          (gaugesAfter (handleRawData sampleEnv samplePool (sampleBatch [⟨1000, 4, [1]⟩])
            sampleConn).1 (fun _ _ _ => none)) "mem" "A" "agent" = some 10 :=
  (metricsAgentHeartBeat_gauges sampleEnv).2 samplePool sampleConn
    (sampleBatch [⟨1000, 4, [1]⟩]) (sampleBatch [⟨1000, 9, [2]⟩]) ⟨1000, 4, [1]⟩ ⟨1000, 9, [2]⟩
    10 (fun _ _ _ => none) (by decide) rfl rfl rfl rfl rfl rfl rfl rfl

/-- C9 (the code departs from it): the plugin heartbeat of body `[3]` carries
the name `7` and the field `cpu` with the value `1.5`.  `parsePluginHeartBeat`
upserts the detail under the raw name `7`, with `cpu` held as the number
`3/2`, and `cpu` is a gauge of the table; yet the run sets no gauge at all.
The coercion loop exempts only `pversion`, so it stores the name as a number,
the type assertion `detail["name"].(string)` in `handleRawData` fails, and
`metricsAgentHeartBeat` is never called for the plugin that was just
registered under that name. -/
theorem plugin_heartbeat_numeric_name_sets_no_gauge :
    sampleEnv.unmarshal [3] = .ok (fieldMapOf [("name", "7"), ("cpu", "1.5")])
      ∧ (fieldMapOf [("name", "7"), ("cpu", "1.5")]).lookup "name" = some "7"
      ∧ "cpu" ∈ sampleEnv.agentGauge
      ∧ (∃ d : Detail ℚ,
          Event.setPluginDetail "7" d
              ∈ (handleRawData sampleEnv samplePool (sampleBatch [⟨1001, 5, [3]⟩])
                  sampleConn).1
            ∧ d.lookup "cpu" = some (.float64 (3 / 2)))
      ∧ ((handleRawData sampleEnv samplePool (sampleBatch [⟨1001, 5, [3]⟩])
            sampleConn).1.any Event.isGaugeSet) = false
      ∧ gaugesAfter (handleRawData sampleEnv samplePool (sampleBatch [⟨1001, 5, [3]⟩])
            sampleConn).1 (fun _ _ _ => none) "cpu" "A" "7" = none := by
  refine ⟨rfl, by decide, by decide,
    ⟨(coerceFields sampleEnv "pversion"
        (fieldMapOf [("name", "7"), ("cpu", "1.5")]) ∅).insert
        "last_heartbeat_time" (.int64 1700000000), ?_, ?_⟩, rfl, rfl⟩
  · exact List.Mem.tail _ (List.Mem.tail _ (List.Mem.tail _ (List.Mem.head _)))
  · rfl

/-- C10: when the body of the record decodes, `parseAgentHeartBeat` calls
`SetAgentDetail` once with the detail it returns; that detail holds the agent
id, version, hostname and product of the batch, the source address and
creation time of the connection and the current time under the administrative
keys, whatever the decoded fields hold under these keys; each address-list key
holds the list of the batch, or a non-nil empty list when the batch has none;
every other decoded key holds its coerced value.  When the body does not
decode, the result is nil and `SetAgentDetail` is not called. -/
theorem parseAgentHeartBeat_detail (env : Env F) (k : Nat) (record : Record) (req : RawData)
    (conn : Connection) :
    (∀ hb : FieldMap, env.unmarshal record.Body = .ok hb →
      ∃ detail : Detail F,
        parseAgentHeartBeat env k record req conn = (some detail, [.setAgentDetail detail])
        ∧ detail.lookup "agent_id" = some (.str req.AgentID)
        ∧ detail.lookup "agent_addr" = some (.str conn.SourceAddr)
        ∧ detail.lookup "create_at" = some (.int64 conn.CreateAt)
        ∧ detail.lookup "intranet_ipv4" = some (.strs (some (req.IntranetIPv4.getD [])))
        ∧ detail.lookup "extranet_ipv4" = some (.strs (some (req.ExtranetIPv4.getD [])))
        ∧ detail.lookup "intranet_ipv6" = some (.strs (some (req.IntranetIPv6.getD [])))
        ∧ detail.lookup "extranet_ipv6" = some (.strs (some (req.ExtranetIPv6.getD [])))
        ∧ detail.lookup "version" = some (.str req.Version)
        ∧ detail.lookup "hostname" = some (.str req.Hostname)
        ∧ detail.lookup "product" = some (.str req.Product)
        ∧ detail.lookup "last_heartbeat_time" = some (.int64 (env.now k))
        ∧ ∀ key s, key ∉ adminKeys → hb.lookup key = some s →
            detail.lookup key
              = some (if key = "platform_version" then Value.str s
                  else match env.parseFloat s with
                    | some fv => Value.float64 fv
                    | none => Value.str s))
    ∧ ∀ err : String, env.unmarshal record.Body = .error err →
        parseAgentHeartBeat env k record req conn = (none, [.logParseRecordError err]) := by
  refine ⟨fun hb hd => ?_, fun err hd => parseAgentHeartBeat_error env k record req conn err hd⟩
  obtain ⟨d, hp, h1, h2, h3, h4, h5, h6, h7, h8, h9, h10, h11, hother⟩ :=
    parseAgentHeartBeat_ok env k record req conn hb hd
  refine ⟨d, hp, h1, h2, h3, h4, h5, h6, h7, h8, h9, h10, h11, fun key s hkey hs => ?_⟩
  rw [hother key hkey, coerceFields_lookup, hs]

theorem parseAgentHeartBeat_detail_witness :
    (∃ detail : Detail ℚ,
        parseAgentHeartBeat sampleEnv 0 ⟨1000, 4, [5]⟩ (sampleBatch [⟨1000, 4, [5]⟩]) sampleConn
            = (some detail, [.setAgentDetail detail])
          ∧ detail.lookup "agent_id" = some (.str "A"))
      ∧ parseAgentHeartBeat sampleEnv 0 ⟨1000, 4, [0]⟩ (sampleBatch [⟨1000, 4, [0]⟩]) sampleConn
          = (none, [.logParseRecordError "proto: cannot parse invalid wire-format data"]) :=
  ⟨((parseAgentHeartBeat_detail sampleEnv 0 ⟨1000, 4, [5]⟩ (sampleBatch [⟨1000, 4, [5]⟩])
      sampleConn).1 _ rfl).imp (fun _ h => ⟨h.1, h.2.1⟩),
    (parseAgentHeartBeat_detail sampleEnv 0 ⟨1000, 4, [0]⟩ (sampleBatch [⟨1000, 4, [0]⟩])
      sampleConn).2 _ rfl⟩

end Elkeid
